import Mathlib

/-!
Formal model of the change-detection engine of the web_noti repository
(src/webnotify/tasks.py).  Pure computations of the Python code (regular
expression scans, the extraction heuristics, the evaluator state machine in
check_source) are translated into executable Lean definitions.  Calls into
external libraries (BeautifulSoup DOM queries, hashlib, the network, the
browser) are represented by explicit inputs: a Soup record carries the result
of each DOM query the code performs, SHA-256 digests are rendered by an
injective tagging function (the code only ever compares digests for
equality), and the outcome of the HTTP request and of the two rendered
snapshots are parameters of check_source.
-/

namespace WebNoti

/-- Characters of a string (the logical model of a Lean string is its
character list, so this reduces in the kernel). -/
def chars (s : String) : List Char := s.data

/-- Word character in the sense of the `\w` / `\b` regex classes used by
tasks.py (ASCII letters, digits, underscore). -/
def isWordChar (c : Char) : Bool := c.isAlphanum || c = '_'

def isDigitChar (c : Char) : Bool := c.isDigit

/-- Numeric value of a digit run, as computed by int() on the matched group. -/
def natOfDigits (ds : List Char) : Nat :=
  ds.foldl (fun n c => n * 10 + (c.toNat - 48)) 0

/-- Maximal runs of word characters, in order of occurrence.  A pattern of
the form b-word-b (word boundaries around a literal or a digit group)
matches the text exactly when one of these runs is the matched word. -/
def wordTokensAux : List Char → List Char → List (List Char)
  | [], acc => if acc.isEmpty then [] else [acc.reverse]
  | c :: rest, acc =>
    if isWordChar c then wordTokensAux rest (c :: acc)
    else if acc.isEmpty then wordTokensAux rest []
    else acc.reverse :: wordTokensAux rest []

def wordTokens (l : List Char) : List (List Char) := wordTokensAux l []

/-- Leading-match test: p is a leading segment of l. -/
def hasLead : List Char → List Char → Bool
  | [], _ => true
  | _ :: _, [] => false
  | p :: ps, c :: cs => p = c && hasLead ps cs

/-- Case-insensitive leading-match test (p is given in lower case). -/
def hasLeadCI : List Char → List Char → Bool
  | [], _ => true
  | _ :: _, [] => false
  | p :: ps, c :: cs => p = c.toLower && hasLeadCI ps cs

/-- Substring containment, as the Python `in` operator on str. -/
def hasSubstrList (p : List Char) : List Char → Bool
  | [] => p.isEmpty
  | c :: rest => hasLead p (c :: rest) || hasSubstrList p rest

/-- True when the regex engine sees a word boundary at the head of l
(end of input or a non-word character). -/
def wordEndsAt : List Char → Bool
  | [] => true
  | c :: _ => !isWordChar c

/-- Python str.strip(): whitespace removed from both ends. -/
def trimList (l : List Char) : List Char :=
  ((l.dropWhile (·.isWhitespace)).reverse.dropWhile (·.isWhitespace)).reverse

/-- Split on the newline character, as used on the output of
_visible_text(soup) (text nodes joined by newlines). -/
def splitOnNl : List Char → List (List Char)
  | [] => [[]]
  | c :: rest =>
    let r := splitOnNl rest
    if c = '\n' then [] :: r
    else
      match r with
      | [] => [[c]]
      | h :: t => (c :: h) :: t

/-- First match of b-digits{1,maxLen}-b in a line (re.search scanning left
to right): the first maximal word run that consists of 1 to maxLen digits. -/
def firstDigitTokenVal (maxLen : Nat) (l : List Char) : Option Nat :=
  ((wordTokens l).find? fun t =>
      !t.isEmpty && t.all isDigitChar && t.length ≤ maxLen).map natOfDigits

/-- re.search of the pattern open-paren digits{1,maxLen} close-paren:
scanning left to right, a literal open paren followed by a full digit run of
length 1..maxLen followed by a close paren (a longer run cannot match, the
quantifier backtracks onto a digit instead of the close paren). -/
def parenNumScan (maxLen : Nat) : List Char → Option Nat
  | [] => none
  | '(' :: rest =>
    let ds := rest.takeWhile isDigitChar
    if 1 ≤ ds.length && ds.length ≤ maxLen &&
        (rest.drop ds.length).head? = some ')' then
      some (natOfDigits ds)
    else parenNumScan maxLen rest
  | _ :: rest => parenNumScan maxLen rest

/-- Anchored pattern: start, whitespace*, open paren, digits{1,maxLen},
close paren. -/
def leadParenNum (maxLen : Nat) (l : List Char) : Option Nat :=
  let t := l.dropWhile (·.isWhitespace)
  match t with
  | '(' :: rest =>
    let ds := rest.takeWhile isDigitChar
    if 1 ≤ ds.length && ds.length ≤ maxLen &&
        (rest.drop ds.length).head? = some ')' then
      some (natOfDigits ds)
    else none
  | _ => none

/-- Anchored Gmail title pattern of _gmail_unread_count: start, whitespace*,
open paren, digits{1,4}, close paren, whitespace*, the literal Inbox
(case sensitive, no re.I flag on this search in the source). -/
def gmailTitleInbox (l : List Char) : Option Nat :=
  let t := l.dropWhile (·.isWhitespace)
  match t with
  | '(' :: rest =>
    let ds := rest.takeWhile isDigitChar
    if 1 ≤ ds.length && ds.length ≤ 4 then
      match rest.drop ds.length with
      | ')' :: tail =>
        if hasLead (chars ("Inbox")) (tail.dropWhile (·.isWhitespace)) then
          some (natOfDigits ds)
        else none
      | _ => none
    else none
  | _ => none

/-- re.search, case-insensitive, of: the literal inbox, whitespace*, an
optional open paren, digits{1,4} (greedy, nothing mandatory afterwards, so
the group takes the first up-to-4 digits of the run), an optional close
paren.  On failure at a position the scan resumes one character later. -/
def inboxNumScan : List Char → Option Nat
  | [] => none
  | c :: rest =>
    if hasLeadCI (chars ("inbox")) (c :: rest) then
      let r1 := (c :: rest).drop 5
      let r2 := r1.dropWhile (·.isWhitespace)
      let r3 := match r2 with
        | '(' :: t => t
        | _ => r2
      let ds := r3.takeWhile isDigitChar
      if !ds.isEmpty then some (natOfDigits (ds.take 4)) else inboxNumScan rest
    else inboxNumScan rest

/-- re.search, case-insensitive, of: the literal unread, a lazy run of colon
or whitespace characters, digits{1,4}.  The lazy class run expands only
until the first digit, so this skips the maximal colon-or-whitespace run
after the literal and then requires a digit. -/
def unreadNumScan : List Char → Option Nat
  | [] => none
  | c :: rest =>
    if hasLeadCI (chars ("unread")) (c :: rest) then
      let r1 := (c :: rest).drop 6
      let r2 := r1.dropWhile fun ch => ch = ':' || ch.isWhitespace
      let ds := r2.takeWhile isDigitChar
      if !ds.isEmpty then some (natOfDigits (ds.take 4)) else unreadNumScan rest
    else unreadNumScan rest

/-- re.search, case-insensitive, of: boundary, digits{1,5}, whitespace+, the
literal unread or new, boundary.  The digit group must start at a word
boundary and be followed by whitespace, hence be a full all-digit word run
of length 1..5.  The Bool argument tracks whether the previous character was
a word character (boundary bookkeeping during the scan). -/
def numBeforeUnreadNew : List Char → Bool → Option Nat
  | [], _ => none
  | c :: rest, prevWord =>
    if !prevWord && isDigitChar c then
      let ds := c :: rest.takeWhile isDigitChar
      if ds.length ≤ 5 then
        let after := rest.drop (ds.length - 1)
        let ws := after.takeWhile (·.isWhitespace)
        let r := after.drop ws.length
        if ws.length ≥ 1 &&
            ((hasLeadCI (chars ("unread")) r && wordEndsAt (r.drop 6)) ||
             (hasLeadCI (chars ("new")) r && wordEndsAt (r.drop 3))) then
          some (natOfDigits ds)
        else numBeforeUnreadNew rest true
      else numBeforeUnreadNew rest true
    else numBeforeUnreadNew rest (isWordChar c)

/-- The KEYWORDS regular expression of tasks.py line 23: word-bounded,
case-insensitive occurrence of one of the activity keywords. -/
def kwTokens : List (List Char) :=
  [chars ("inbox"), chars ("message"), chars ("messages"),
   chars ("notification"), chars ("notifications"),
   chars ("alert"), chars ("alerts")]

def keywordsSearchList (l : List Char) : Bool :=
  (wordTokens (l.map Char.toLower)).any fun t => kwTokens.any fun k => k == t

/-- KEYWORDS.search on a string (bool of the match object). -/
def keywordsSearch (text : String) : Bool := keywordsSearchList (chars text)

/-- Python slicing s[:n] (by characters). -/
def strTake (n : Nat) (s : String) : String := String.mk ((chars s).take n)

/-- Python len(s) (by characters). -/
def strLen (s : String) : Nat := (chars s).length

/-- SHA-256 hex digest, modeled as an injective tagging of the hashed text:
the checker only ever compares digests for equality, and distinct inputs
give distinct digests. -/
def sha256Hex (s : String) : String := "sha256:" ++ s

/-- _hash_text of tasks.py: sha256 of the utf-8 encoded text. -/
def hash_text (txt : String) : String := sha256Hex txt

/-- An anchor inside a list-like container: hyperlink target (already
stripped, as the code strips it) and rendered text. -/
structure AnchorItem where
  href : String := ""
  text : String := ""
  deriving Repr, DecidableEq

/-- One list-like container found by the container selector of
_extract_item_keys, with its anchors and its list-item-like text blocks in
document order. -/
structure ItemContainer where
  anchors : List AnchorItem := []
  items : List String := []
  deriving Repr, DecidableEq

/-- Model of a parsed page (BeautifulSoup object).  Each field records the
result of one DOM query performed by tasks.py; everything the Python code
computes itself from those results is translated below. -/
structure Soup where
  /-- (soup.title.string or "").strip() -/
  title : String := ""
  /-- _visible_text(soup): script, style, noscript and template stripped,
  text nodes joined by newlines. -/
  visibleText : String := ""
  /-- number of elements from soup.select of tr.zA.zE -/
  gmailRows : Nat := 0
  /-- number of elements from the combined selector tr.zA.zE, .zA.zE and
  descendants -/
  gmailNodes : Nat := 0
  /-- number of distinct elements in that combined selection -/
  gmailDedup : Nat := 0
  /-- number of elements from soup.select of .unread, .unread-count, .bsu -/
  gmailUnreadSel : Nat := 0
  /-- number of elements from the aria-label unread and .zF, .yP selector
  used by the Gmail URL fallback of check_source -/
  gmailSpans : Nat := 0
  /-- outcome of steps 2 to 4 of _extract_count_from_aria_or_badges (the
  attribute scan, the anchor-and-sibling scan and the class-name scan over
  the DOM); none when those scans return nothing -/
  badgeDomScan : Option Int := none
  /-- list-like containers found by the container selector of
  _extract_item_keys -/
  containers : List ItemContainer := []
  /-- the whole document viewed as one container (the fallback of
  _extract_item_keys when no list-like container exists) -/
  wholeDoc : ItemContainer := {}
  deriving Repr, DecidableEq

/-- _gmail_unread_count of tasks.py lines 110-151. -/
def gmail_unread_count (soup : Soup) : Option Int :=
  if soup.gmailNodes > 0 then
    if soup.gmailRows > 0 then some (Int.ofNat soup.gmailRows)
    else some (Int.ofNat soup.gmailDedup)
  else if soup.gmailUnreadSel > 0 then some (Int.ofNat soup.gmailUnreadSel)
  else
    match gmailTitleInbox (chars soup.title) with
    | some n => some (Int.ofNat n)
    | none =>
      match inboxNumScan (chars soup.visibleText) with
      | some n => some (Int.ofNat n)
      | none => (unreadNumScan (chars soup.visibleText)).map Int.ofNat

/-- _extract_count_from_title of tasks.py lines 154-161. -/
def extract_count_from_title (soup : Soup) : Option Int :=
  (parenNumScan 3 (chars soup.title)).map Int.ofNat

/-- Substring keys of step 5 of the badge heuristic (plain substring
containment on the lowercased line, not word-bounded). -/
def badgeSubstrKeys : List (List Char) :=
  [chars ("inbox"), chars ("unread"), chars ("notification"),
   chars ("notifications"), chars ("new")]

/-- Step 5 of _extract_count_from_aria_or_badges: first stripped non-empty
visible-text line whose lowercase form contains one of the keys and which
holds a word-bounded run of 1..5 digits; its first such run is returned. -/
def badgeLineLoop : List (List Char) → Option Int
  | [] => none
  | line :: rest =>
    let L := trimList line
    if L.isEmpty then badgeLineLoop rest
    else
      let low := L.map Char.toLower
      if badgeSubstrKeys.any (fun k => hasSubstrList k low) then
        match firstDigitTokenVal 5 L with
        | some v => some (Int.ofNat v)
        | none => badgeLineLoop rest
      else badgeLineLoop rest

/-- _extract_count_from_aria_or_badges of tasks.py lines 164-285.  Step 1
(the two title patterns) and step 5 (the visible-line scan) are translated;
steps 2 to 4 are DOM scans whose outcome is the badgeDomScan field. -/
def extract_count_from_aria_or_badges (soup : Soup) : Option Int :=
  let titleRes : Option Nat :=
    if soup.title ≠ "" then
      match leadParenNum 5 (chars soup.title) with
      | some n => some n
      | none => numBeforeUnreadNew (chars soup.title) false
    else none
  match titleRes with
  | some n => some (Int.ofNat n)
  | none =>
    match soup.badgeDomScan with
    | some n => some n
    | none => badgeLineLoop (splitOnNl (chars soup.visibleText))

/-- _extract_count_from_text of tasks.py lines 288-299: over the lines of
the visible text, keep those that are non-empty after stripping and match
KEYWORDS, read the first word-bounded 1..3 digit run of each, and return
the maximum (None when no line qualifies). -/
def extract_count_from_text (soup_text : String) : Option Int :=
  (splitOnNl (chars soup_text)).foldl
    (fun best line =>
      let L := trimList line
      if L.isEmpty || !keywordsSearchList L then best
      else
        match firstDigitTokenVal 3 L with
        | some v =>
          match best with
          | none => some (Int.ofNat v)
          | some b => some (max b (Int.ofNat v))
        | none => best)
    none

/-- Python truthiness disjunction on optional integers, as used between the
extraction heuristics in check_source line 713: the left value is kept only
when it is neither None nor zero. -/
def pyOrInt (a b : Option Int) : Option Int :=
  match a with
  | some n => if n ≠ 0 then some n else b
  | none => b

/-- The parsed count computed by check_source lines 712-730: the truthiness
chain over the four heuristics, then the Gmail row and span fallback that
applies only when the chain produced None and the URL contains
mail.google.com. -/
def parsed_count_of (soup : Soup) (check_url : String) : Option Int :=
  let p0 := pyOrInt (gmail_unread_count soup)
    (pyOrInt (extract_count_from_title soup)
      (pyOrInt (extract_count_from_aria_or_badges soup)
        (extract_count_from_text soup.visibleText)))
  if p0.isNone && hasSubstrList (chars ("mail.google.com")) (chars check_url) then
    if soup.gmailRows > 0 then some (Int.ofNat soup.gmailRows)
    else if soup.gmailSpans > 0 then some (Int.ofNat soup.gmailSpans)
    else none
  else p0

/-- Key accumulation for one container of _extract_item_keys: anchors first
(key is the href, or href plus a text snippet when the truncated text has at
least 8 characters), then list-item-like blocks with at least 12 characters
of text (text-based keys).  The seen-set deduplication is global across
containers, so the accumulator threads through. -/
def itemKeysOfContainer (c : ItemContainer) (acc : List String) : List String :=
  let acc := c.anchors.foldl
    (fun acc a =>
      if a.href = "" then acc
      else
        let text := strTake 120 a.text
        let key := if strLen text ≥ 8 then a.href ++ " :: " ++ text else a.href
        if acc.contains key then acc else acc ++ [key])
    acc
  c.items.foldl
    (fun acc t =>
      if t ≠ "" && strLen t ≥ 12 then
        let key := "TXT::" ++ strTake 160 t
        if acc.contains key then acc else acc ++ [key]
      else acc)
    acc

/-- _extract_item_keys of tasks.py lines 524-560.  (This function is defined
by the repository but never called from check_source.) -/
def extract_item_keys (soup : Soup) : List String :=
  let conts := if soup.containers.isEmpty then [soup.wholeDoc] else soup.containers
  (conts.foldl (fun acc c => itemKeysOfContainer c acc) []).take 500

/-- The persisted extra_config blob of a source, restricted to the keys
tasks.py reads or writes.  The three fingerprint strings default to empty,
exactly as _load_previous_fingerprint supplies empty strings for missing
entries (the saved_at timestamp inside the stored fingerprint is not
modeled; no claim mentions wall-clock time). -/
structure Extra where
  /-- bool(extra.get("rendered", False)) -/
  rendered : Bool := false
  /-- extra.get("mode"): the fetch mode recorded with the baseline -/
  mode : Option String := none
  /-- extra.get("cookies"), kept opaque: the checker only forwards it -/
  cookies : List (String × String) := []
  fpEtag : String := ""
  fpLast : String := ""
  fpBody : String := ""
  /-- extra.get("last_count") -/
  last_count : Option Int := none
  /-- extra.get("last_hash") -/
  last_hash : Option String := none
  deriving Repr, DecidableEq

/-- A NotificationSource row as check_source reads it. -/
structure SourceRow where
  name : String := ""
  check_url : String := ""
  enabled : Bool := true
  extra_config : Extra := {}
  deriving Repr, DecidableEq

/-- A Notification record as created by check_source (user and source
references and the timestamp are not modeled; the meta dict is flattened). -/
structure Notif where
  title : String := ""
  message : String := ""
  link : Option String := none
  /-- meta["detector"] -/
  detector : String := ""
  /-- meta["prev"] (count detector only) -/
  metaPrev : Option Int := none
  /-- meta["now"] (count detector only) -/
  metaNow : Option Int := none
  /-- meta["keywords"] (text-hash detector only) -/
  metaKeywords : Option Bool := none
  deriving Repr, DecidableEq

/-- The two fetch strategies, for recording the order of fetch attempts. -/
inductive FetchMode where
  | http
  | rendered
  deriving Repr, DecidableEq

/-- Outcome of the plain-HTTP GET issued by check_source (the network is an
external input): a 304 Not Modified, a successful response carrying body
text and the ETag and Last-Modified headers (empty strings when absent), or
any exception path (connection failure, retry exhaustion, raise_for_status). -/
inductive HttpResult where
  | notModified
  | okResp (body : String) (etag : String) (lastMod : String)
  | errorResp
  deriving Repr, DecidableEq

/-- Observable outcome of one check_source invocation: the extra_config
blob afterwards, whether it was saved, whether last_checked advanced, the
Notification records created, the boolean return value, the order of fetch
attempts, and whether the parse-and-extract section was reached. -/
structure CheckResult where
  extra : Extra
  extraSaved : Bool
  lastChecked : Bool
  events : List Notif
  ret : Bool
  attempts : List FetchMode
  extracted : Bool
  deriving Repr, DecidableEq

/-- Outcome of one detector section of check_source. -/
structure StepOut where
  extra : Extra
  events : List Notif
  created : Bool
  deriving Repr, DecidableEq

/-- prev_mode of check_source line 588: extra.get("mode") or "requests"
(Python or, so an empty or missing mode falls back to requests). -/
def prev_mode_of (e : Extra) : String :=
  match e.mode with
  | some m => if m = "" then "requests" else m
  | none => "requests"

/-- cur_mode of check_source line 589. -/
def cur_mode_of (e : Extra) : String :=
  if e.rendered then "rendered" else "requests"

/-- first_baseline of check_source line 744: no stored fingerprint component
and no stored count. -/
def first_baseline (e : Extra) : Bool :=
  e.fpEtag == "" && e.fpLast == "" && e.fpBody == "" && e.last_count.isNone

/-- Re-baseline condition of line 745: first run, or recorded fetch mode
different from the configured one. -/
def rebaseline_cond (e : Extra) : Bool :=
  first_baseline e || !(prev_mode_of e == cur_mode_of e)

/-- _store_fingerprint of tasks.py lines 69-77. -/
def store_fingerprint (e : Extra) (etag last_mod body_hash : String) : Extra :=
  { e with fpEtag := etag, fpLast := last_mod, fpBody := body_hash }

/-- Count detector section of check_source lines 759-779. -/
def count_branch (name : String) (extra : Extra)
    (parsed_count prev_count : Option Int) : StepOut :=
  match parsed_count with
  | none => { extra := extra, events := [], created := false }
  | some pc =>
    match prev_count with
    | none => { extra := { extra with last_count := some pc }, events := [], created := false }
    | some prev =>
      if pc > prev then
        { extra := { extra with last_count := some pc },
          events := [{ title := "New messages on " ++ name,
                       message := "Unread count: " ++ toString pc,
                       link := none,
                       detector := "count",
                       metaPrev := some prev,
                       metaNow := some pc,
                       metaKeywords := none }],
          created := true }
      else
        { extra := { extra with last_count := some pc }, events := [], created := false }

/-- Text-hash fallback section of check_source lines 781-805. -/
def hash_branch (source : SourceRow) (extra : Extra) (created : Bool)
    (parsed_count : Option Int) (text text_hash : String) : StepOut :=
  if !created && parsed_count.isNone then
    match extra.last_hash with
    | none => { extra := { extra with last_hash := some text_hash }, events := [], created := false }
    | some prev_text_hash =>
      if keywordsSearch text && text_hash != prev_text_hash then
        let preview := strTake 200 text ++ (if strLen text > 200 then "…" else "")
        { extra := { extra with last_hash := some text_hash },
          events := [{ title := "Activity on " ++ source.name,
                       message := if (String.mk (trimList (chars preview))) ≠ "" then preview else "Page changed",
                       link := some source.check_url,
                       detector := "text-hash",
                       metaPrev := none,
                       metaNow := none,
                       metaKeywords := some true }],
          created := true }
      else
        { extra := { extra with last_hash := some text_hash }, events := [], created := false }
  else
    { extra := extra, events := [], created := false }

/-- The two detector sections of check_source in order (count first, then
the text-hash fallback guarded by not-created-and-no-count), with the
combined event list and created flag. -/
def detect_phase (source : SourceRow) (extra : Extra)
    (parsed_count prev_count : Option Int) (text text_hash : String) : StepOut :=
  let s1 := count_branch source.name extra parsed_count prev_count
  let s2 := hash_branch source s1.extra s1.created parsed_count text text_hash
  { extra := s2.extra, events := s1.events ++ s2.events,
    created := s1.created || s2.created }

/-- The fingerprint-and-evaluate section of check_source, lines 705-812:
everything after a page was obtained.  html is the final html_text; etag,
lastMod and content describe resp_for_fp (_fingerprint_response reads the
two headers and hashes the body).  parse stands for BeautifulSoup.  The
local parsed_count computed inside the rendered block for the two snapshots
(lines 677-696) is unconditionally overwritten at line 713 and therefore
does not appear. -/
def mainEval (parse : String → Soup) (source : SourceRow)
    (html etag lastMod content : String) (atts : List FetchMode) : CheckResult :=
  let extra := source.extra_config
  let body_hash := sha256Hex content
  let soup := parse html
  let text := soup.visibleText
  let prev_count := extra.last_count
  let parsed_count := parsed_count_of soup source.check_url
  let text_hash := hash_text text
  if rebaseline_cond extra then
    let e1 := store_fingerprint extra etag lastMod body_hash
    let e2 :=
      match parsed_count with
      | some n => { e1 with last_count := some n, last_hash := none }
      | none => { e1 with last_hash := some text_hash, last_count := none }
    { extra := { e2 with mode := some (cur_mode_of extra) },
      extraSaved := true, lastChecked := true, events := [], ret := false,
      attempts := atts, extracted := true }
  else
    let s := detect_phase source extra parsed_count prev_count text text_hash
    { extra := { store_fingerprint s.extra etag lastMod body_hash with
                   mode := some (cur_mode_of extra) },
      extraSaved := true, lastChecked := true,
      events := s.events, ret := s.created,
      attempts := atts, extracted := true }

/-- html_text after the rendered block, line 666: long_html or short_html
or the HTTP text, under Python string truthiness (an empty render result is
skipped, a total render failure keeps the HTTP text or None). -/
def renderedHtml (shortHtml longHtml : String) (html0 : Option String) : Option String :=
  if longHtml ≠ "" then some longHtml
  else if shortHtml ≠ "" then some shortHtml
  else html0

/-- resp_for_fp after the rendered block, lines 669-675: when the combined
html_text is truthy it is replaced by a fake response with no headers and
the html as body; otherwise the previous response (or None) stands. -/
def renderedFp (shortHtml longHtml : String) (html0 : Option String)
    (fp0 : Option (String × String × String)) : Option (String × String × String) :=
  match renderedHtml shortHtml longHtml html0 with
  | some h => if h ≠ "" then some ("", "", h) else fp0
  | none => fp0

/-- The tail of check_source after fetching, lines 700-812: the failure
guard (html_text is None or resp_for_fp is None updates only last_checked
and returns False), then mainEval. -/
def afterFetch (parse : String → Soup) (source : SourceRow)
    (html_text : Option String) (respFp : Option (String × String × String))
    (atts : List FetchMode) : CheckResult :=
  match html_text, respFp with
  | some html, some fp => mainEval parse source html fp.1 fp.2.1 fp.2.2 atts
  | _, _ =>
    { extra := source.extra_config, extraSaved := false, lastChecked := true,
      events := [], ret := false, attempts := atts, extracted := false }

/-- check_source of tasks.py lines 566-812.  parse models BeautifulSoup;
httpRes is the outcome of the HTTP GET (issued first on every path, lines
608-635); shortHtml and longHtml are the two rendered snapshots (empty
string for a failed render), consulted only when rendered mode is
configured or the HTTP fetch failed (line 641).  A missing or disabled
source returns False without touching anything. -/
def check_source (parse : String → Soup) (source : SourceRow)
    (httpRes : HttpResult) (shortHtml longHtml : String) : CheckResult :=
  if source.enabled then
    match httpRes with
    | .notModified =>
      { extra := source.extra_config, extraSaved := false, lastChecked := true,
        events := [], ret := false, attempts := [.http], extracted := false }
    | .okResp body etag lastMod =>
      if source.extra_config.rendered then
        afterFetch parse source
          (renderedHtml shortHtml longHtml (some body))
          (renderedFp shortHtml longHtml (some body) (some (etag, lastMod, body)))
          [.http, .rendered]
      else
        afterFetch parse source (some body) (some (etag, lastMod, body)) [.http]
    | .errorResp =>
      afterFetch parse source
        (renderedHtml shortHtml longHtml none)
        (renderedFp shortHtml longHtml none none)
        [.http, .rendered]
  else
    { extra := source.extra_config, extraSaved := false, lastChecked := false,
      events := [], ret := false, attempts := [], extracted := false }

/-! ### Concrete scenarios used by the testable properties -/

/-- A page whose title carries a parenthesized unread count before the word
Inbox, so every count heuristic agrees on the value c. -/
def countSoup (c : Nat) : Soup := { title := "(" ++ toString c ++ ") Inbox" }

/-- One poll of a fixed source against a page showing count c: the carried
state and the boolean check_source returned. -/
def seqStep (st : Extra) (c : Nat) : Extra × Bool :=
  let src : SourceRow :=
    { name := "s", check_url := "http://x", enabled := true, extra_config := st }
  let r := check_source (fun _ => countSoup c) src (.okResp ("body") "" "") "" ""
  (r.extra, r.ret)

/-- Polling a fresh source against a sequence of counts; returns the
check_source results in order. -/
def seqResults (cs : List Nat) : List Bool :=
  (cs.foldl (fun (p : Extra × List Bool) c =>
    let q := seqStep p.1 c
    (q.1, p.2 ++ [q.2])) ({}, [])).2

/-! ### Structural lemmas on the detector phase -/

theorem count_branch_last_hash (n : String) (e : Extra) (p q : Option Int) :
    (count_branch n e p q).extra.last_hash = e.last_hash := by
  unfold count_branch
  rcases p with _ | pc
  · rfl
  rcases q with _ | prev
  · rfl
  by_cases h : pc > prev <;> simp [h]

theorem hash_branch_last_count (src : SourceRow) (e : Extra) (c : Bool)
    (p : Option Int) (t th : String) :
    (hash_branch src e c p t th).extra.last_count = e.last_count := by
  unfold hash_branch
  split
  · cases hh : e.last_hash
    · rfl
    · split
      · rfl
      · split <;> rfl
  · rfl

theorem hash_branch_skip (src : SourceRow) (e : Extra) (c : Bool)
    (p : Option Int) (t th : String) (h : (!c && p.isNone) = false) :
    hash_branch src e c p t th = { extra := e, events := [], created := false } := by
  unfold hash_branch
  simp [h]

theorem detect_phase_spec (src : SourceRow) (e : Extra)
    (p q : Option Int) (t th : String) :
    (detect_phase src e p q t th).events.length ≤ 1 ∧
    ((detect_phase src e p q t th).created = true ↔
      (detect_phase src e p q t th).events ≠ []) ∧
    (detect_phase src e p q t th).events.all
      (fun ev => ev.detector == "count" || ev.detector == "text-hash") = true := by
  unfold detect_phase count_branch hash_branch
  rcases p with _ | pc
  · cases hh : e.last_hash
    · simp [hh]
    · simp only [hh]
      split_ifs <;> simp
  · rcases q with _ | prev
    · simp
    · by_cases h : pc > prev <;> simp [h]

theorem mainEval_spec (parse : String → Soup) (src : SourceRow)
    (html etag lastMod content : String) (atts : List FetchMode) :
    (mainEval parse src html etag lastMod content atts).events.length ≤ 1 ∧
    ((mainEval parse src html etag lastMod content atts).ret = true ↔
      (mainEval parse src html etag lastMod content atts).events ≠ []) ∧
    (mainEval parse src html etag lastMod content atts).events.all
      (fun ev => ev.detector == "count" || ev.detector == "text-hash") = true := by
  unfold mainEval
  dsimp only
  split
  · simp
  · simpa using detect_phase_spec src src.extra_config
      (parsed_count_of (parse html) src.check_url) src.extra_config.last_count
      (parse html).visibleText (hash_text (parse html).visibleText)

theorem afterFetch_spec (parse : String → Soup) (src : SourceRow)
    (ht : Option String) (fp : Option (String × String × String))
    (atts : List FetchMode) :
    (afterFetch parse src ht fp atts).events.length ≤ 1 ∧
    ((afterFetch parse src ht fp atts).ret = true ↔
      (afterFetch parse src ht fp atts).events ≠ []) ∧
    (afterFetch parse src ht fp atts).events.all
      (fun ev => ev.detector == "count" || ev.detector == "text-hash") = true := by
  rcases ht with _ | html
  · simp [afterFetch]
  rcases fp with _ | f
  · simp [afterFetch]
  · simpa [afterFetch] using mainEval_spec parse src html f.1 f.2.1 f.2.2 atts

theorem check_source_spec (parse : String → Soup) (src : SourceRow)
    (httpRes : HttpResult) (sh lh : String) :
    (check_source parse src httpRes sh lh).events.length ≤ 1 ∧
    ((check_source parse src httpRes sh lh).ret = true ↔
      (check_source parse src httpRes sh lh).events ≠ []) ∧
    (check_source parse src httpRes sh lh).events.all
      (fun ev => ev.detector == "count" || ev.detector == "text-hash") = true := by
  unfold check_source
  cases he : src.enabled
  · simp [he]
  · rcases httpRes with _ | ⟨b, e2, l2⟩ | _
    · simp [he]
    · cases hr : src.extra_config.rendered
      · simpa [he, hr] using
          afterFetch_spec parse src (some b) (some (e2, l2, b)) [.http]
      · simpa [he, hr] using
          afterFetch_spec parse src (renderedHtml sh lh (some b))
            (renderedFp sh lh (some b) (some (e2, l2, b))) [.http, .rendered]
    · simpa [he] using
        afterFetch_spec parse src (renderedHtml sh lh none)
          (renderedFp sh lh none none) [.http, .rendered]

/-! ### Claims -/

/-- C10: every single invocation of check_source creates at most one
Notification record (the detectors are mutually exclusive within one
evaluation), and its boolean return value is true exactly when that
invocation created a Notification. -/
theorem C10_at_most_one_event :
    ∀ (parse : String → Soup) (src : SourceRow) (httpRes : HttpResult) (sh lh : String),
      (check_source parse src httpRes sh lh).events.length ≤ 1 ∧
      ((check_source parse src httpRes sh lh).ret = true ↔
        (check_source parse src httpRes sh lh).events ≠ []) :=
  fun parse src httpRes sh lh =>
    ⟨(check_source_spec parse src httpRes sh lh).1,
     (check_source_spec parse src httpRes sh lh).2.1⟩

/-- C1 (amended): check_source performs no item-key detection at all: the
item-key extractor is never consulted, no seen_keys set exists in the
baseline, and every event any invocation creates carries the count or the
text-hash detector, never a new-keys detector. -/
theorem C1_detector_never_new_keys :
    ∀ (parse : String → Soup) (src : SourceRow) (httpRes : HttpResult) (sh lh : String),
      ((check_source parse src httpRes sh lh).events.all
        (fun ev => ev.detector == "count" || ev.detector == "text-hash")) = true :=
  fun parse src httpRes sh lh => (check_source_spec parse src httpRes sh lh).2.2

/-- A page offering both extractable item keys and an increased count. -/
def c1soup : Soup :=
  { title := "(3) Inbox",
    visibleText := "A fresh notification item",
    wholeDoc := { anchors := [{ href := "https://site/item1",
                                text := "A fresh notification item" }] } }

/-- A source holding a Baselined state with a stored count of 1. -/
def c1src : SourceRow :=
  { name := "forum", check_url := "https://site/inbox", enabled := true,
    extra_config := { mode := some ("requests"), fpBody := "sha256:prev",
                      last_count := some 1 } }

/-- C1 fails on the code: in a Baselined-to-Baselined evaluation of a page
with extractable item keys (all of them absent from the stored key set,
since check_source never stores one), the single event created carries the
count detector, not a new-keys detector. -/
theorem C1_counterexample :
    extract_item_keys c1soup ≠ [] ∧
    rebaseline_cond c1src.extra_config = false ∧
    (check_source (fun _ => c1soup) c1src (.okResp ("page") "" "") "" "").events.map
      Notif.detector = ["count"] := by decide

/-- C2: in a Baselined-to-Baselined evaluation with an extracted count and a
prior count, a strictly greater count creates exactly one event carrying
the count detector and the previous and new values, and updates the stored
count; an equal or lower count creates no event and silently updates the
stored count.  Over the count sequence 2, 2, 5, 3, 3, 6 polled from a fresh
source, events fire exactly at the 2 to 5 and the 3 to 6 transitions. -/
theorem C2_count_transitions :
    (∀ (parse : String → Soup) (src : SourceRow) (body etag lastMod : String)
        (prev pc : Int),
      src.enabled = true →
      src.extra_config.rendered = false →
      rebaseline_cond src.extra_config = false →
      src.extra_config.last_count = some prev →
      parsed_count_of (parse body) src.check_url = some pc →
      ((pc > prev →
          (check_source parse src (.okResp body etag lastMod) "" "").events.map
            (fun ev => (ev.detector, ev.metaPrev, ev.metaNow)) =
            [("count", some prev, some pc)] ∧
          (check_source parse src (.okResp body etag lastMod) "" "").ret = true ∧
          (check_source parse src (.okResp body etag lastMod) "" "").extra.last_count =
            some pc) ∧
       (pc ≤ prev →
          (check_source parse src (.okResp body etag lastMod) "" "").events = [] ∧
          (check_source parse src (.okResp body etag lastMod) "" "").ret = false ∧
          (check_source parse src (.okResp body etag lastMod) "" "").extra.last_count =
            some pc))) ∧
    seqResults [2, 2, 5, 3, 3, 6] = [false, false, true, false, false, true] := by
  constructor
  · intro parse src body etag lastMod prev pc he hr hb hl hp
    have hred : check_source parse src (.okResp body etag lastMod) "" "" =
        mainEval parse src body etag lastMod body [.http] := by
      unfold check_source afterFetch
      simp [he, hr]
    rw [hred]
    unfold mainEval
    dsimp only
    rw [hp, hl, hb]
    constructor
    · intro hgt
      simp [detect_phase, count_branch, hash_branch, store_fingerprint, hgt]
    · intro hle
      have hngt : ¬ pc > prev := not_lt.mpr hle
      simp [detect_phase, count_branch, hash_branch, store_fingerprint, hngt]
  · decide

/-- A source holding a Baselined state with a stored count of 2. -/
def w2src : SourceRow :=
  { name := "mail", check_url := "https://site/mail", enabled := true,
    extra_config := { mode := some ("requests"), fpBody := "sha256:w",
                      last_count := some 2 } }

/-- Witness for C2 at a concrete input: stored count 2, page count 5,
giving one count event with previous 2 and new value 5. -/
theorem C2_witness :
    (check_source (fun _ => countSoup 5) w2src (.okResp ("b") "" "") "" "").events.map
      (fun ev => (ev.detector, ev.metaPrev, ev.metaNow)) =
      [("count", some (2 : Int), some (5 : Int))] ∧
    (check_source (fun _ => countSoup 5) w2src (.okResp ("b") "" "") "" "").ret = true :=
  let h := (C2_count_transitions.1 (fun _ => countSoup 5) w2src "b" "" "" 2 5
    rfl rfl (by decide) rfl (by decide)).1 (by decide)
  ⟨h.1, h.2.1⟩

/-- C3: the text-hash fallback runs only when no numeric count was
extracted.  With no prior hash, the current hash is stored as baseline and
no event is created.  With a prior hash, an event is created exactly when
the visible text matches an activity keyword (KEYWORDS, case-insensitive
word-bounded inbox, message, messages, notification, notifications, alert,
alerts) and the hash differs from the stored one; in every case the stored
hash is silently updated to the current one.  When a count was extracted,
the stored hash is left untouched and any event carries the count
detector. -/
theorem C3_text_hash_fallback :
    ∀ (parse : String → Soup) (src : SourceRow) (body etag lastMod : String),
      src.enabled = true →
      src.extra_config.rendered = false →
      rebaseline_cond src.extra_config = false →
      ((parsed_count_of (parse body) src.check_url = none →
        (src.extra_config.last_hash = none →
          (check_source parse src (.okResp body etag lastMod) "" "").events = [] ∧
          (check_source parse src (.okResp body etag lastMod) "" "").ret = false ∧
          (check_source parse src (.okResp body etag lastMod) "" "").extra.last_hash =
            some (hash_text (parse body).visibleText)) ∧
        (∀ h0, src.extra_config.last_hash = some h0 →
          (check_source parse src (.okResp body etag lastMod) "" "").extra.last_hash =
            some (hash_text (parse body).visibleText) ∧
          ((check_source parse src (.okResp body etag lastMod) "" "").ret = true ↔
            (keywordsSearch (parse body).visibleText = true ∧
             hash_text (parse body).visibleText ≠ h0)) ∧
          (check_source parse src (.okResp body etag lastMod) "" "").events.all
            (fun ev => ev.detector == "text-hash") = true)) ∧
       (∀ pc, parsed_count_of (parse body) src.check_url = some pc →
          (check_source parse src (.okResp body etag lastMod) "" "").extra.last_hash =
            src.extra_config.last_hash ∧
          (check_source parse src (.okResp body etag lastMod) "" "").events.all
            (fun ev => ev.detector == "count") = true)) := by
  intro parse src body etag lastMod he hr hb
  have hred : check_source parse src (.okResp body etag lastMod) "" "" =
      mainEval parse src body etag lastMod body [.http] := by
    unfold check_source afterFetch
    simp [he, hr]
  rw [hred]
  unfold mainEval
  dsimp only
  rw [hb]
  constructor
  · intro hp
    rw [hp]
    constructor
    · intro hnone
      simp [detect_phase, count_branch, hash_branch, store_fingerprint, hnone]
    · intro h0 hsome
      simp only [detect_phase, count_branch, hash_branch, store_fingerprint, hsome]
      split_ifs with hk <;> simp_all
  · intro pc hp
    rw [hp]
    cases hq : src.extra_config.last_count
    · simp [detect_phase, count_branch, hash_branch, store_fingerprint, hq]
    · simp only [detect_phase, count_branch, hash_branch, store_fingerprint, hq]
      split_ifs <;> simp_all

/-- A source holding a Baselined state with a stored text hash. -/
def w3src : SourceRow :=
  { name := "board", check_url := "https://site/board", enabled := true,
    extra_config := { mode := some ("requests"), fpBody := "sha256:w3",
                      last_hash := some ("sha256:old page text") } }

/-- Witness for C3 at a concrete input: a countless page whose visible text
contains the keyword inbox and hashes differently from the stored hash, so
the invocation returns true. -/
theorem C3_witness :
    (check_source (fun _ => { visibleText := "Inbox changed today" }) w3src
      (.okResp ("b") "" "") "" "").ret = true := by
  have h := ((C3_text_hash_fallback (fun _ => { visibleText := "Inbox changed today" })
    w3src "b" "" "" rfl rfl (by decide)).1 (by decide)).2
    ("sha256:old page text") rfl
  exact h.2.1.mpr (by decide)

theorem afterFetch_rebaseline (parse : String → Soup) (src : SourceRow)
    (ht : Option String) (fp : Option (String × String × String))
    (atts : List FetchMode) (hbb : rebaseline_cond src.extra_config = true) :
    (afterFetch parse src ht fp atts).events = [] ∧
    (afterFetch parse src ht fp atts).ret = false := by
  rcases ht with _ | html
  · simp [afterFetch]
  rcases fp with _ | f
  · simp [afterFetch]
  · show (mainEval parse src html f.1 f.2.1 f.2.2 atts).events = [] ∧
      (mainEval parse src html f.1 f.2.1 f.2.2 atts).ret = false
    unfold mainEval
    dsimp only
    rw [hbb]
    simp

theorem mainEval_rebaseline_fields (parse : String → Soup) (src : SourceRow)
    (html etag lastMod content : String) (atts : List FetchMode)
    (hbb : rebaseline_cond src.extra_config = true) :
    (mainEval parse src html etag lastMod content atts).extraSaved = true ∧
    (mainEval parse src html etag lastMod content atts).extra.mode =
      some (cur_mode_of src.extra_config) ∧
    (mainEval parse src html etag lastMod content atts).extra.fpBody =
      sha256Hex content ∧
    (∀ pc, parsed_count_of (parse html) src.check_url = some pc →
      (mainEval parse src html etag lastMod content atts).extra.last_count = some pc ∧
      (mainEval parse src html etag lastMod content atts).extra.last_hash = none) ∧
    (parsed_count_of (parse html) src.check_url = none →
      (mainEval parse src html etag lastMod content atts).extra.last_hash =
        some (hash_text (parse html).visibleText) ∧
      (mainEval parse src html etag lastMod content atts).extra.last_count = none) := by
  unfold mainEval
  dsimp only
  rw [hbb]
  cases hp : parsed_count_of (parse html) src.check_url <;>
    simp [hp, store_fingerprint]

/-- C4: whenever the recorded baseline mode differs from the configured
fetch mode, or no prior baseline exists, check_source never creates an
event and returns false whatever the fetch produced; and when a page was
fetched it silently re-baselines, storing the new fingerprint, the
extracted signal (the count when one exists, popping the hash; otherwise
the text hash, popping the count) and the current mode. -/
theorem C4_silent_rebaseline :
    (∀ (parse : String → Soup) (src : SourceRow) (httpRes : HttpResult) (sh lh : String),
      src.enabled = true →
      rebaseline_cond src.extra_config = true →
      (check_source parse src httpRes sh lh).events = [] ∧
      (check_source parse src httpRes sh lh).ret = false) ∧
    (∀ (parse : String → Soup) (src : SourceRow) (body etag lastMod : String),
      src.enabled = true →
      rebaseline_cond src.extra_config = true →
      (check_source parse src (.okResp body etag lastMod) "" "").extraSaved = true ∧
      (check_source parse src (.okResp body etag lastMod) "" "").extra.mode =
        some (cur_mode_of src.extra_config) ∧
      (check_source parse src (.okResp body etag lastMod) "" "").extra.fpBody =
        sha256Hex body ∧
      (∀ pc, parsed_count_of (parse body) src.check_url = some pc →
        (check_source parse src (.okResp body etag lastMod) "" "").extra.last_count =
          some pc ∧
        (check_source parse src (.okResp body etag lastMod) "" "").extra.last_hash =
          none) ∧
      (parsed_count_of (parse body) src.check_url = none →
        (check_source parse src (.okResp body etag lastMod) "" "").extra.last_hash =
          some (hash_text (parse body).visibleText) ∧
        (check_source parse src (.okResp body etag lastMod) "" "").extra.last_count =
          none)) := by
  constructor
  · intro parse src httpRes sh lh he hbb
    unfold check_source
    rcases httpRes with _ | ⟨b, e2, l2⟩ | _
    · simp [he]
    · cases hr : src.extra_config.rendered
      · simpa [he, hr] using afterFetch_rebaseline parse src
          (some b) (some (e2, l2, b)) [.http] hbb
      · simpa [he, hr] using afterFetch_rebaseline parse src
          (renderedHtml sh lh (some b))
          (renderedFp sh lh (some b) (some (e2, l2, b))) [.http, .rendered] hbb
    · simpa [he] using afterFetch_rebaseline parse src
        (renderedHtml sh lh none) (renderedFp sh lh none none)
        [.http, .rendered] hbb
  · intro parse src body etag lastMod he hbb
    cases hr : src.extra_config.rendered
    · have hred : check_source parse src (.okResp body etag lastMod) "" "" =
          mainEval parse src body etag lastMod body [.http] := by
        unfold check_source afterFetch
        simp [he, hr]
      rw [hred]
      exact mainEval_rebaseline_fields parse src body etag lastMod body [.http] hbb
    · by_cases hbody : body = ""
      · have hred : check_source parse src (.okResp body etag lastMod) "" "" =
            mainEval parse src body etag lastMod body [.http, .rendered] := by
          unfold check_source afterFetch renderedHtml renderedFp
          simp [he, hr, hbody, renderedHtml]
        rw [hred]
        exact mainEval_rebaseline_fields parse src body etag lastMod body
          [.http, .rendered] hbb
      · have hred : check_source parse src (.okResp body etag lastMod) "" "" =
            mainEval parse src body "" "" body [.http, .rendered] := by
          unfold check_source afterFetch renderedHtml renderedFp
          simp [he, hr, hbody, renderedHtml]
        rw [hred]
        exact mainEval_rebaseline_fields parse src body "" "" body
          [.http, .rendered] hbb

/-- A mode-switched source: baseline recorded under requests mode while
rendered mode is now configured. -/
def w4src : SourceRow :=
  { name := "sw", check_url := "https://site/sw", enabled := true,
    extra_config := { rendered := true, mode := some ("requests"),
                      fpBody := "sha256:w4", last_count := some 7 } }

/-- Witness for C4 at a concrete input: a mode-switched source facing a page
with count 9 emits nothing, returns false, and re-baselines onto the
rendered mode. -/
theorem C4_witness :
    (check_source (fun _ => countSoup 9) w4src (.okResp ("b") "" "") "" "").events = [] ∧
    (check_source (fun _ => countSoup 9) w4src (.okResp ("b") "" "") "" "").ret = false ∧
    (check_source (fun _ => countSoup 9) w4src (.okResp ("b") "" "") "" "").extra.mode =
      some ("rendered") :=
  let hA := C4_silent_rebaseline.1 (fun _ => countSoup 9) w4src
    (.okResp ("b") "" "") "" "" rfl (by decide)
  let hB := C4_silent_rebaseline.2 (fun _ => countSoup 9) w4src "b" "" ""
    rfl (by decide)
  ⟨hA.1, hA.2, hB.2.1.trans (by decide)⟩

/-- C5: whenever the HTTP fetch reports 304 Not Modified, check_source
returns false having created no event, never reaches the parse-and-extract
section, leaves the stored extra_config untouched and unsaved, and advances
only the last-checked timestamp. -/
theorem C5_304_short_circuit :
    ∀ (parse : String → Soup) (src : SourceRow) (sh lh : String),
      src.enabled = true →
      (check_source parse src .notModified sh lh).ret = false ∧
      (check_source parse src .notModified sh lh).events = [] ∧
      (check_source parse src .notModified sh lh).extra = src.extra_config ∧
      (check_source parse src .notModified sh lh).extraSaved = false ∧
      (check_source parse src .notModified sh lh).lastChecked = true ∧
      (check_source parse src .notModified sh lh).extracted = false := by
  intro parse src sh lh he
  unfold check_source
  simp [he]

/-- Witness for C5 at a concrete input: a 304 against a source with a
stored count changes nothing and returns false. -/
theorem C5_witness :
    (check_source (fun _ => countSoup 5) w2src .notModified "" "").ret = false ∧
    (check_source (fun _ => countSoup 5) w2src .notModified "" "").extra =
      w2src.extra_config ∧
    (check_source (fun _ => countSoup 5) w2src .notModified "" "").extracted = false :=
  let h := C5_304_short_circuit (fun _ => countSoup 5) w2src "" "" rfl
  ⟨h.1, h.2.2.1, h.2.2.2.2.2⟩

/-- C6: when the fetch fails entirely (HTTP error and both rendered
snapshots empty), check_source returns false, creates no event, advances
only the last-checked timestamp, and leaves every field of the stored
baseline exactly as it was. -/
theorem C6_fetch_failure_untouched :
    ∀ (parse : String → Soup) (src : SourceRow),
      src.enabled = true →
      (check_source parse src .errorResp "" "").ret = false ∧
      (check_source parse src .errorResp "" "").events = [] ∧
      (check_source parse src .errorResp "" "").extra = src.extra_config ∧
      (check_source parse src .errorResp "" "").extraSaved = false ∧
      (check_source parse src .errorResp "" "").lastChecked = true ∧
      (check_source parse src .errorResp "" "").extracted = false := by
  intro parse src he
  unfold check_source afterFetch renderedHtml renderedFp
  simp [he]

/-- Witness for C6 at a concrete input: a total fetch failure against a
source with a stored count and hash leaves the whole baseline unchanged. -/
theorem C6_witness :
    (check_source (fun _ => countSoup 5) w3src .errorResp "" "").ret = false ∧
    (check_source (fun _ => countSoup 5) w3src .errorResp "" "").extra =
      w3src.extra_config :=
  let h := C6_fetch_failure_untouched (fun _ => countSoup 5) w3src rfl
  ⟨h.1, h.2.2.1⟩

theorem afterFetch_attempts (parse : String → Soup) (src : SourceRow)
    (ht : Option String) (fp : Option (String × String × String))
    (atts : List FetchMode) :
    (afterFetch parse src ht fp atts).attempts = atts := by
  rcases ht with _ | html
  · simp [afterFetch]
  rcases fp with _ | f
  · simp [afterFetch]
  · show (mainEval parse src html f.1 f.2.1 f.2.2 atts).attempts = atts
    unfold mainEval
    dsimp only
    split <;> simp

/-- A rendered-mode source. -/
def c7src : SourceRow :=
  { name := "r", check_url := "https://app/feed", enabled := true,
    extra_config := { rendered := true } }

/-- C7 fails on the code: a source configured for rendered mode still
issues the plain HTTP fetch first. -/
theorem C7_counterexample :
    c7src.extra_config.rendered = true ∧
    (check_source (fun _ => ({} : Soup)) c7src
      (.okResp ("page") "" "") "" "").attempts.head? = some .http := by decide

/-- C7 (amended): check_source always attempts the HTTP fetch first, even
for rendered-mode sources; the rendered fetch is attempted, after HTTP,
exactly when rendered mode is configured or the HTTP fetch failed, except
that a 304 response returns before any rendered attempt.  The recovery
fallback from failed HTTP to rendered exists as specified; the converse
restraint (no HTTP attempt under rendered mode) does not hold. -/
theorem C7_fetch_order :
    ∀ (parse : String → Soup) (src : SourceRow) (httpRes : HttpResult) (sh lh : String),
      src.enabled = true →
      (check_source parse src httpRes sh lh).attempts =
        .http :: (if httpRes = .notModified then []
                  else if src.extra_config.rendered = true ∨ httpRes = .errorResp then
                    [.rendered]
                  else []) := by
  intro parse src httpRes sh lh he
  unfold check_source
  rcases httpRes with _ | ⟨b, e2, l2⟩ | _
  · simp [he]
  · cases hr : src.extra_config.rendered <;>
      simp [he, hr, afterFetch_attempts]
  · simp [he, afterFetch_attempts]

/-- Witness for the amended C7 at a concrete input: an HTTP-mode source
with a successful HTTP fetch attempts HTTP only. -/
theorem C7_witness :
    (check_source (fun _ => countSoup 5) w2src (.okResp ("b") "" "") "" "").attempts =
      [.http] :=
  (C7_fetch_order (fun _ => countSoup 5) w2src (.okResp ("b") "" "") "" "" rfl).trans
    (by decide)

/-- The count selection rule exactly as the claim words it: among the four
heuristic results, the first non-null one wins, a zero included. -/
def claimedFirstNonNull (g t b x : Option Int) : Option Int :=
  match g with
  | some v => some v
  | none =>
    match t with
    | some v => some v
    | none =>
      match b with
      | some v => some v
      | none => x

/-- The amended selection rule: the first non-null and non-zero value among
the leading heuristics wins, and when none qualifies the final operand
passes through verbatim. -/
def amendedChain : List (Option Int) → Option Int → Option Int
  | [], last => last
  | none :: rest, last => amendedChain rest last
  | some n :: rest, last =>
    if n ≠ 0 then some n else amendedChain rest last

/-- A page titled (0) Inbox whose visible text reads Messages 5. -/
def c8soup : Soup := { title := "(0) Inbox", visibleText := "Messages 5" }

/-- A source holding a Baselined state with a stored count of 2. -/
def c8src : SourceRow :=
  { name := "m", check_url := "https://site/m", enabled := true,
    extra_config := { mode := some ("requests"), fpBody := "sha256:c8",
                      last_count := some 2 } }

/-- C8 fails on the code: on a page titled (0) Inbox with visible text
Messages 5, the site-specific heuristic returns the non-null value 0, so
the claimed first-non-null rule would select 0 (and, the prior count being
2, nothing would fire); the evaluator instead uses 5, because the Python
truthiness chain drops the falsy 0, and emits a count event with new value
5. -/
theorem C8_counterexample :
    gmail_unread_count c8soup = some 0 ∧
    claimedFirstNonNull (gmail_unread_count c8soup) (extract_count_from_title c8soup)
      (extract_count_from_aria_or_badges c8soup)
      (extract_count_from_text c8soup.visibleText) = some 0 ∧
    parsed_count_of c8soup c8src.check_url = some 5 ∧
    (check_source (fun _ => c8soup) c8src (.okResp ("p") "" "") "" "").events.map
      (fun ev => (ev.detector, ev.metaNow)) = [("count", some 5)] := by decide

/-- C8 (amended): the chain combining the four count heuristics keeps the
first non-null AND non-zero value; a zero from one of the first three
heuristics is treated as absent and falls through, and only the final
heuristic can contribute a zero (or None) verbatim.  (The Gmail URL
fallback afterwards applies only when this chain produced None.) -/
theorem C8_truthiness_chain :
    ∀ g t b x : Option Int,
      pyOrInt g (pyOrInt t (pyOrInt b x)) = amendedChain [g, t, b] x := by
  intro g t b x
  rcases g with _ | gv <;> rcases t with _ | tv <;> rcases b with _ | bv <;>
      simp only [pyOrInt, amendedChain]

/-- A mode-switched source holding both a stored hash and a fingerprint. -/
def c9src : SourceRow :=
  { name := "s9", check_url := "https://site/s9", enabled := true,
    extra_config := { rendered := true, mode := some ("requests"),
                      fpBody := "sha256:z", last_hash := some ("sha256:oldtext") } }

/-- C9 fails on the code: re-baselining after a mode switch does not
preserve the field of the unused strategy; storing the count 3 pops the
previously stored last_hash. -/
theorem C9_counterexample :
    c9src.extra_config.last_hash = some ("sha256:oldtext") ∧
    (check_source (fun _ => countSoup 3) c9src (.okResp ("p") "" "") "" "").extra.last_count =
      some 3 ∧
    (check_source (fun _ => countSoup 3) c9src (.okResp ("p") "" "") "" "").extra.last_hash =
      none := by decide

theorem detect_phase_some_last_hash (src : SourceRow) (e : Extra) (pc : Int)
    (q : Option Int) (t th : String) :
    (detect_phase src e (some pc) q t th).extra.last_hash = e.last_hash := by
  unfold detect_phase
  dsimp only
  rw [hash_branch_skip _ _ _ _ _ _ (by simp)]
  exact count_branch_last_hash src.name e (some pc) q

theorem detect_phase_none_last_count (src : SourceRow) (e : Extra)
    (q : Option Int) (t th : String) :
    (detect_phase src e none q t th).extra.last_count = e.last_count := by
  simpa [detect_phase, count_branch] using
    hash_branch_last_count src e false none t th

/-- C9 (amended): on Baselined-to-Baselined evaluations the field of the
strategy not used is left untouched (a stored count does not remove the
stored hash and conversely); but on a re-baseline (first run or mode
switch) the unused strategy field is removed: storing a count pops
last_hash, and storing a hash pops last_count. -/
theorem C9_strategy_fields :
    ∀ (parse : String → Soup) (src : SourceRow) (body etag lastMod : String),
      src.enabled = true →
      src.extra_config.rendered = false →
      ((rebaseline_cond src.extra_config = false →
        (parsed_count_of (parse body) src.check_url ≠ none →
          (check_source parse src (.okResp body etag lastMod) "" "").extra.last_hash =
            src.extra_config.last_hash) ∧
        (parsed_count_of (parse body) src.check_url = none →
          (check_source parse src (.okResp body etag lastMod) "" "").extra.last_count =
            src.extra_config.last_count)) ∧
       (rebaseline_cond src.extra_config = true →
        (∀ pc, parsed_count_of (parse body) src.check_url = some pc →
          (check_source parse src (.okResp body etag lastMod) "" "").extra.last_hash =
            none) ∧
        (parsed_count_of (parse body) src.check_url = none →
          (check_source parse src (.okResp body etag lastMod) "" "").extra.last_count =
            none))) := by
  intro parse src body etag lastMod he hr
  have hred : check_source parse src (.okResp body etag lastMod) "" "" =
      mainEval parse src body etag lastMod body [.http] := by
    unfold check_source afterFetch
    simp [he, hr]
  rw [hred]
  constructor
  · intro hbb
    unfold mainEval
    dsimp only
    rw [hbb]
    constructor
    · intro hp
      cases hp2 : parsed_count_of (parse body) src.check_url
      · exact absurd hp2 hp
      · simp [store_fingerprint, detect_phase_some_last_hash]
    · intro hp
      rw [hp]
      simp [store_fingerprint, detect_phase_none_last_count]
  · intro hbb
    have h := mainEval_rebaseline_fields parse src body etag lastMod body [.http] hbb
    exact ⟨fun pc hp => (h.2.2.2.1 pc hp).2, fun hp => (h.2.2.2.2 hp).2⟩

/-- A Baselined source holding both a stored count and a stored hash. -/
def w9src : SourceRow :=
  { name := "s9w", check_url := "https://site/s9w", enabled := true,
    extra_config := { mode := some ("requests"), fpBody := "sha256:w9",
                      last_count := some 4, last_hash := some ("sha256:keep") } }

/-- Witness for the amended C9 at a concrete input: a Baselined evaluation
that stores the count 9 leaves the stored hash in place. -/
theorem C9_witness :
    (check_source (fun _ => countSoup 9) w9src (.okResp ("b") "" "") "" "").extra.last_hash =
      some ("sha256:keep") :=
  ((((C9_strategy_fields (fun _ => countSoup 9) w9src "b" "" "" rfl rfl).1
      (by decide)).1) (by decide)).trans rfl

end WebNoti
